import Mathlib

/-!
Verification of the collectd HTTP receiver (`src/collectd-rust/src/main.rs`)
against its natural-language specification.

The development is a shallow embedding of the core pipeline:

* `Json` models `serde_json::Value` (numbers as exact rationals — the program
  never computes with them, it only copies and serializes them, so any type
  with decidable structure is faithful for these properties).
* `CollectdMetric` / `ProcessedMetric` mirror the two Rust structs field for
  field, including which serde attributes are present: the input struct
  renames `type_` to the JSON key `"type"` on deserialization, while the
  output struct carries NO rename attribute, so its derived `Serialize`
  emits the key `"type_"` verbatim.
* `process_metric` is the normalizer, translated clause by clause.
* `parseCollectdMetric` models serde's derived deserialization of
  `CollectdMetric`, both forms serde_json accepts for a struct: the map
  form (a JSON object: unknown keys ignored, duplicate known keys rejected,
  missing optional fields default to `none`, `null` deserializes an
  `Option` field to `none`) and the positional seq form (a JSON array of
  exactly eight elements, one per field in declaration order — fewer is
  serde's `invalid_length` error, more is serde_json's trailing-characters
  error at `end_seq`, and each element deserializes at its field's type).
* `collectd_handler` models the HTTP handler: the ordered parse attempt
  (single object first, then array), the per-record channel sends, and the
  400/500/200 outcomes.  The unbounded tokio channel is modelled by a single
  `channel_open` flag: sends succeed iff the receiving worker is still alive,
  which is exactly tokio's `UnboundedSender::send` contract.
* `disk_writer_step` / `udp_sender_step` embed one iteration of the two
  worker `select!` loops as step functions over an event (`recv`, channel
  `closed`, timer `tick`).  `Instant` timestamps are naturals (milliseconds);
  `elapsed()` is `now - last`.  A `Bool` sink oracle says whether the I/O in
  a flush performed during the step succeeds; a failing flush is the Rust `?`
  propagating out of the loop, modelled as `Except.error`.
-/

/-- A JSON value, modelling `serde_json::Value`. -/
inductive Json where
  | null
  | bool (b : Bool)
  | num (q : ℚ)
  | str (s : String)
  | arr (elems : List Json)
  | obj (members : List (String × Json))

/-- Field names of a JSON object, in order; `[]` on non-objects. -/
def Json.objKeys : Json → List String
  | Json.obj members => members.map Prod.fst
  | _ => []

/-- First binding of a field name in a JSON object (how a reader of one
output line accesses a field after parsing it back). -/
def Json.lookup : Json → String → Option Json
  | Json.obj members, key => members.lookup key
  | _, _ => none

/-- Number of elements of a JSON array; `0` on non-arrays. -/
def Json.arrLen : Json → Nat
  | Json.arr elems => elems.length
  | _ => 0

/-- The configuration struct (`Config`), flags the program is started with.
`u16`/`u64`/`usize` fields become `Nat`: none of the verified code paths
perform arithmetic that could overflow them. -/
structure Config where
  host : String
  port : Nat
  batch_size : Nat
  output_mode : String
  output_file : String
  udp_host : String
  udp_port : Nat
  flush_interval_ms : Nat

/-- The input struct `CollectdMetric` (the spec's RawSubmission): all fields
optional; `type_` is the Rust name of the JSON field `"type"`. -/
structure CollectdMetric where
  time : Option ℚ
  host : Option String
  plugin : Option String
  plugin_instance : Option String
  type_ : Option String
  type_instance : Option String
  value : Option Json
  values : Option (List Json)

/-- The output struct `ProcessedMetric` (the spec's FlatRecord): same
metadata, exactly one `value`. -/
structure ProcessedMetric where
  time : Option ℚ
  host : Option String
  plugin : Option String
  plugin_instance : Option String
  type_ : Option String
  type_instance : Option String
  value : Json

/-- The loop body of `process_metric`: one `ProcessedMetric` sharing all of
the submission's metadata and carrying one value. -/
def flat_of (metric : CollectdMetric) (value : Json) : ProcessedMetric :=
  { time := metric.time
    host := metric.host
    plugin := metric.plugin
    plugin_instance := metric.plugin_instance
    type_ := metric.type_
    type_instance := metric.type_instance
    value := value }

/-- `process_metric`: resolve the `values`-over-`value` union exactly as the
`if let` chain does (a present `values`, even empty, wins; else a present
`value` becomes a one-element list; else the empty result), then emit one
flat record per element, in order. -/
def process_metric (metric : CollectdMetric) : List ProcessedMetric :=
  let values : List Json :=
    match metric.values with
    | some values_array => values_array
    | none =>
      match metric.value with
      | some single_value => [single_value]
      | none => []
  values.map (flat_of metric)

/-- serde serialization of an `Option<f64>` field: `None` is an explicit
JSON `null` (no `skip_serializing_if` attribute is present). -/
def jsonOfOptNum : Option ℚ → Json
  | none => Json.null
  | some q => Json.num q

/-- serde serialization of an `Option<String>` field: `None` is an explicit
JSON `null`. -/
def jsonOfOptStr : Option String → Json
  | none => Json.null
  | some s => Json.str s

/-- The derived `Serialize` of `ProcessedMetric`: one JSON object, fields in
declaration order under their Rust field names.  The struct has no
`#[serde(rename = "type")]` attribute, so the fifth key is literally
`"type_"`. -/
def serializeProcessedMetric (m : ProcessedMetric) : Json :=
  Json.obj
    [("time", jsonOfOptNum m.time),
     ("host", jsonOfOptStr m.host),
     ("plugin", jsonOfOptStr m.plugin),
     ("plugin_instance", jsonOfOptStr m.plugin_instance),
     ("type_", jsonOfOptStr m.type_),
     ("type_instance", jsonOfOptStr m.type_instance),
     ("value", m.value)]

/-- `write_batch_to_disk`: append one serialized JSON line per buffered
record, in buffer order, and drain the buffer.  The file is the list of
lines written so far; the pair is (new file contents, drained buffer). -/
def write_batch_to_disk (file : List Json) (buffer : List ProcessedMetric) :
    List Json × List ProcessedMetric :=
  (file ++ buffer.map serializeProcessedMetric, [])

/-- `send_batch_udp`: serialize the whole buffer as ONE JSON array, transmit
it as a single datagram, then clear the buffer.  The pair is (datagram
payload, cleared buffer). -/
def send_batch_udp (buffer : List ProcessedMetric) :
    Json × List ProcessedMetric :=
  (Json.arr (buffer.map serializeProcessedMetric), [])

/-- serde deserialization of an `Option<f64>` field value: `null` gives
`none`, a number gives `some`, anything else is a type error. -/
def parseOptNum : Json → Option (Option ℚ)
  | Json.null => some none
  | Json.num q => some (some q)
  | _ => none

/-- serde deserialization of an `Option<String>` field value. -/
def parseOptStr : Json → Option (Option String)
  | Json.null => some none
  | Json.str s => some (some s)
  | _ => none

/-- serde deserialization of an `Option<serde_json::Value>` field value:
`null` gives `none`, everything else is kept verbatim; never a type error. -/
def parseOptVal : Json → Option (Option Json)
  | Json.null => some none
  | j => some (some j)

/-- serde deserialization of an `Option<Vec<serde_json::Value>>` field
value: `null` gives `none`, an array gives its elements, anything else is a
type error. -/
def parseOptValList : Json → Option (Option (List Json))
  | Json.null => some none
  | Json.arr elems => some (some elems)
  | _ => none

/-- Accumulator for serde's derived map visitor on `CollectdMetric`: one
slot per field, `none` while the field has not been seen yet. -/
structure MetricSlots where
  time : Option (Option ℚ)
  host : Option (Option String)
  plugin : Option (Option String)
  plugin_instance : Option (Option String)
  type_ : Option (Option String)
  type_instance : Option (Option String)
  value : Option (Option Json)
  values : Option (Option (List Json))

/-- All slots empty. -/
def emptySlots : MetricSlots :=
  { time := none, host := none, plugin := none, plugin_instance := none
    type_ := none, type_instance := none, value := none, values := none }

/-- One step of serde's derived map visitor for `CollectdMetric`: fill the
slot named by `key` (the `type_` field answers to the JSON key `"type"`,
per its `#[serde(rename = "type")]`), fail on a duplicate known key or an
ill-typed value, and skip unknown keys (no `deny_unknown_fields`). -/
def applyField (s : MetricSlots) (key : String) (v : Json) :
    Option MetricSlots :=
  match key with
  | "time" =>
    match s.time with
    | some _ => none
    | none => (parseOptNum v).map fun x => { s with time := some x }
  | "host" =>
    match s.host with
    | some _ => none
    | none => (parseOptStr v).map fun x => { s with host := some x }
  | "plugin" =>
    match s.plugin with
    | some _ => none
    | none => (parseOptStr v).map fun x => { s with plugin := some x }
  | "plugin_instance" =>
    match s.plugin_instance with
    | some _ => none
    | none => (parseOptStr v).map fun x => { s with plugin_instance := some x }
  | "type" =>
    match s.type_ with
    | some _ => none
    | none => (parseOptStr v).map fun x => { s with type_ := some x }
  | "type_instance" =>
    match s.type_instance with
    | some _ => none
    | none => (parseOptStr v).map fun x => { s with type_instance := some x }
  | "value" =>
    match s.value with
    | some _ => none
    | none => (parseOptVal v).map fun x => { s with value := some x }
  | "values" =>
    match s.values with
    | some _ => none
    | none => (parseOptValList v).map fun x => { s with values := some x }
  | _ => some s

/-- serde's derived seq visitor for `CollectdMetric`, reached when
serde_json's `deserialize_struct` meets a JSON array: the eight fields are
read positionally in declaration order, each element at its field's type
(`visit_seq` returns `invalid_length` if the sequence ends early, and
serde_json's `end_seq` rejects leftover elements, so exactly eight
elements are required). -/
def parseCollectdMetricSeq : List Json → Option CollectdMetric
  | [e0, e1, e2, e3, e4, e5, e6, e7] => do
    let time ← parseOptNum e0
    let host ← parseOptStr e1
    let plugin ← parseOptStr e2
    let plugin_instance ← parseOptStr e3
    let type2 ← parseOptStr e4
    let type_instance ← parseOptStr e5
    let value ← parseOptVal e6
    let values ← parseOptValList e7
    some
      { time := time, host := host, plugin := plugin
        plugin_instance := plugin_instance, type_ := type2
        type_instance := type_instance, value := value, values := values }
  | _ => none

/-- serde_json deserialization of one `CollectdMetric` from a JSON value:
an object goes through the derived map visitor (members in order, unseen
`Option` fields defaulting to `none`); an array goes through the derived
seq visitor (positional, exactly eight elements); anything else fails. -/
def parseCollectdMetric : Json → Option CollectdMetric
  | Json.obj members =>
    (members.foldlM (fun s kv => applyField s kv.1 kv.2) emptySlots).map
      fun s =>
        { time := s.time.getD none
          host := s.host.getD none
          plugin := s.plugin.getD none
          plugin_instance := s.plugin_instance.getD none
          type_ := s.type_.getD none
          type_instance := s.type_instance.getD none
          value := s.value.getD none
          values := s.values.getD none }
  | Json.arr elems => parseCollectdMetricSeq elems
  | _ => none

/-- serde_json deserialization of a `Vec<CollectdMetric>`: a JSON array
every element of which deserializes; anything else fails. -/
def parseCollectdMetricList : Json → Option (List CollectdMetric)
  | Json.arr elems => elems.mapM parseCollectdMetric
  | _ => none

/-- The body-form decision at the top of `collectd_handler`: a body that is
not JSON at all (`none`) fails; otherwise first try the single-object form,
and only on its failure fall back to the array form.  Success yields the
list `raw_metrics` the handler then iterates over. -/
def parse_raw_metrics : Option Json → Option (List CollectdMetric)
  | none => none
  | some body =>
    match parseCollectdMetric body with
    | some single_metric => some [single_metric]
    | none => parseCollectdMetricList body

/-- `collectd_handler`: parse the body (400 on failure), expand every raw
metric through `process_metric`, and send each flat record on the channel
in order.  `channel_open` is whether the worker still holds the receiving
half: a send on a closed unbounded channel fails, and the first failure
answers 500.  The result pairs the HTTP outcome (`Except status body`) with
the records actually enqueued. -/
def collectd_handler (channel_open : Bool) (body : Option Json) :
    Except Nat String × List ProcessedMetric :=
  match parse_raw_metrics body with
  | none => (Except.error 400, [])
  | some raw_metrics =>
    let records := raw_metrics.flatMap process_metric
    if records.isEmpty then (Except.ok "OK\n", [])
    else if channel_open then (Except.ok "OK\n", records)
    else (Except.error 500, [])

/-- The three events a worker's `select!` loop can wake on: a record from
the channel, the channel reporting closure (`recv()` returned `None`), or a
tick of the flush timer. -/
inductive WorkerEvent where
  | recv (metric : ProcessedMetric)
  | closed
  | tick

/-- `disk_writer` loop state: the append-only file contents, the in-memory
batch buffer, and `last_write` (an `Instant`, as milliseconds). -/
structure DiskWriterState where
  file : List Json
  buffer : List ProcessedMetric
  last_write : Nat

/-- `udp_sender` loop state: the datagrams sent so far, the batch buffer,
and `last_send`. -/
structure UdpSenderState where
  sent : List Json
  buffer : List ProcessedMetric
  last_send : Nat

/-- Observable outcome of one loop iteration: the successor state, the
batches handed to the sink during the step (in order), and whether the loop
`break`s (shutdown). -/
structure StepOut (σ : Type) where
  state : σ
  flushed : List (List ProcessedMetric)
  terminated : Bool

/-- A sink I/O failure inside a flush (`anyhow` error behind the `?`). -/
inductive SinkIOError where
  | ioError

/-- One iteration of the `disk_writer` loop at time `now`.  `io_ok` is
whether the file I/O of a flush performed in this step succeeds; a failure
is the `?` on `write_batch_to_disk` propagating out of the loop. -/
def disk_writer_step (config : Config) (io_ok : Bool) (now : Nat)
    (s : DiskWriterState) (event : WorkerEvent) :
    Except SinkIOError (StepOut DiskWriterState) :=
  match event with
  | WorkerEvent.recv metric =>
    let buffer := s.buffer ++ [metric]
    if config.batch_size ≤ buffer.length then
      if io_ok then
        let (file, drained) := write_batch_to_disk s.file buffer
        Except.ok ⟨⟨file, drained, now⟩, [buffer], false⟩
      else Except.error SinkIOError.ioError
    else Except.ok ⟨⟨s.file, buffer, s.last_write⟩, [], false⟩
  | WorkerEvent.closed =>
    if s.buffer.isEmpty then Except.ok ⟨s, [], true⟩
    else if io_ok then
      let (file, drained) := write_batch_to_disk s.file s.buffer
      Except.ok ⟨⟨file, drained, s.last_write⟩, [s.buffer], true⟩
    else Except.error SinkIOError.ioError
  | WorkerEvent.tick =>
    if s.buffer.isEmpty then Except.ok ⟨s, [], false⟩
    else if config.flush_interval_ms < now - s.last_write then
      if io_ok then
        let (file, drained) := write_batch_to_disk s.file s.buffer
        Except.ok ⟨⟨file, drained, now⟩, [s.buffer], false⟩
      else Except.error SinkIOError.ioError
    else Except.ok ⟨s, [], false⟩

/-- One iteration of the `udp_sender` loop at time `now`, mirroring
`disk_writer_step` with `send_batch_udp` as the sink. -/
def udp_sender_step (config : Config) (io_ok : Bool) (now : Nat)
    (s : UdpSenderState) (event : WorkerEvent) :
    Except SinkIOError (StepOut UdpSenderState) :=
  match event with
  | WorkerEvent.recv metric =>
    let buffer := s.buffer ++ [metric]
    if config.batch_size ≤ buffer.length then
      if io_ok then
        let (datagram, drained) := send_batch_udp buffer
        Except.ok ⟨⟨s.sent ++ [datagram], drained, now⟩, [buffer], false⟩
      else Except.error SinkIOError.ioError
    else Except.ok ⟨⟨s.sent, buffer, s.last_send⟩, [], false⟩
  | WorkerEvent.closed =>
    if s.buffer.isEmpty then Except.ok ⟨s, [], true⟩
    else if io_ok then
      let (datagram, drained) := send_batch_udp s.buffer
      Except.ok ⟨⟨s.sent ++ [datagram], drained, s.last_send⟩, [s.buffer], true⟩
    else Except.error SinkIOError.ioError
  | WorkerEvent.tick =>
    if s.buffer.isEmpty then Except.ok ⟨s, [], false⟩
    else if config.flush_interval_ms < now - s.last_send then
      if io_ok then
        let (datagram, drained) := send_batch_udp s.buffer
        Except.ok ⟨⟨s.sent ++ [datagram], drained, now⟩, [s.buffer], false⟩
      else Except.error SinkIOError.ioError
    else Except.ok ⟨s, [], false⟩

/-- C1, counterexample to the claim as stated: serializing a FlatRecord
whose `type` metadata is `"cpu"` yields a line whose key set is NOT
`time, host, plugin, plugin_instance, type, type_instance, value` — the
fifth key is `"type_"` (the output struct lacks the serde rename the input
struct has), so `"type"` is absent and the value sits under `"type_"`. -/
theorem C1_counterexample :
    ¬ ((serializeProcessedMetric
          ⟨none, none, none, none, some "cpu", none, Json.null⟩).objKeys =
        ["time", "host", "plugin", "plugin_instance", "type",
         "type_instance", "value"]) ∧
    (serializeProcessedMetric
        ⟨none, none, none, none, some "cpu", none, Json.null⟩).lookup "type" =
      none ∧
    (serializeProcessedMetric
        ⟨none, none, none, none, some "cpu", none, Json.null⟩).lookup "type_" =
      some (Json.str "cpu") :=
  ⟨by decide, rfl, rfl⟩

/-- C1 (amended): every line persisted by `write_batch_to_disk` is the
serialization of its record, one JSON object whose field names are exactly
`time, host, plugin, plugin_instance, type_, type_instance, value` (the
`type` metadata field travels under the name `type_`), absent optional
fields serialize as explicit `null` (`jsonOfOptNum none = null`,
`jsonOfOptStr none = null`), and looking every field up in the parsed-back
object returns exactly the originating record's field. -/
theorem C1_disk_line_format (m : ProcessedMetric) (file : List Json)
    (buffer : List ProcessedMetric) :
    (write_batch_to_disk file buffer).1 =
      file ++ buffer.map serializeProcessedMetric ∧
    (serializeProcessedMetric m).objKeys =
      ["time", "host", "plugin", "plugin_instance", "type_",
       "type_instance", "value"] ∧
    (serializeProcessedMetric m).lookup "time" = some (jsonOfOptNum m.time) ∧
    (serializeProcessedMetric m).lookup "host" = some (jsonOfOptStr m.host) ∧
    (serializeProcessedMetric m).lookup "plugin" =
      some (jsonOfOptStr m.plugin) ∧
    (serializeProcessedMetric m).lookup "plugin_instance" =
      some (jsonOfOptStr m.plugin_instance) ∧
    (serializeProcessedMetric m).lookup "type_" =
      some (jsonOfOptStr m.type_) ∧
    (serializeProcessedMetric m).lookup "type_instance" =
      some (jsonOfOptStr m.type_instance) ∧
    (serializeProcessedMetric m).lookup "value" = some m.value ∧
    jsonOfOptNum none = Json.null ∧ jsonOfOptStr none = Json.null :=
  ⟨rfl, rfl, rfl, rfl, rfl, rfl, rfl, rfl, rfl, rfl, rfl⟩

/-- C2: a submission whose `values` is a sequence `vs` normalizes to
exactly `vs.map (flat_of metric)` — one FlatRecord per element, in order,
each carrying the submission's metadata (`flat_of` copies every metadata
field) — so the count is `vs.length` and the i-th record carries the i-th
element. -/
theorem C2_values_expansion (metric : CollectdMetric) (vs : List Json)
    (h : metric.values = some vs) :
    process_metric metric = vs.map (flat_of metric) ∧
    (process_metric metric).length = vs.length ∧
    ∀ i : Nat, (process_metric metric)[i]? = (vs[i]?).map (flat_of metric) := by
  refine ⟨by simp [process_metric, h], ?_, ?_⟩
  · simp [process_metric, h]
  · intro i
    simp [process_metric, h]

/-- C2 witness: a two-element `values` sequence expands to the two flat
records in order. -/
theorem C2_values_expansion_witness :
    process_metric
        ⟨some 1, some "h", none, none, none, none, none,
         some [Json.num 1, Json.str "a"]⟩ =
      [Json.num 1, Json.str "a"].map
        (flat_of ⟨some 1, some "h", none, none, none, none, none,
          some [Json.num 1, Json.str "a"]⟩) :=
  (C2_values_expansion _ [Json.num 1, Json.str "a"] rfl).1

/-- C3: the `values`-over-`value` union: with both fields present only
`values` is honored (the scalar is ignored — the result does not mention
it); with a scalar `value` alone exactly one record carrying it is
produced; with neither field the result is the empty list (and
`process_metric` is total, so no error is possible). -/
theorem C3_union_precedence (metric : CollectdMetric) :
    (∀ vs v, metric.values = some vs → metric.value = some v →
      process_metric metric = vs.map (flat_of metric)) ∧
    (∀ v, metric.values = none → metric.value = some v →
      process_metric metric = [flat_of metric v]) ∧
    (metric.values = none → metric.value = none →
      process_metric metric = []) := by
  refine ⟨?_, ?_, ?_⟩
  · intro vs v h1 _
    simp [process_metric, h1]
  · intro v h1 h2
    simp [process_metric, h1, h2]
  · intro h1 h2
    simp [process_metric, h1, h2]

/-- C3 witness: the three union cases at concrete submissions — both
fields present (`values` wins), scalar only (one record), neither (zero
records). -/
theorem C3_union_precedence_witness :
    process_metric
        ⟨none, none, none, none, none, none, some (Json.num 9),
         some [Json.num 2]⟩ =
      [Json.num 2].map
        (flat_of ⟨none, none, none, none, none, none, some (Json.num 9),
          some [Json.num 2]⟩) ∧
    process_metric ⟨none, some "h", none, none, none, none,
        some (Json.num 7), none⟩ =
      [flat_of ⟨none, some "h", none, none, none, none, some (Json.num 7),
        none⟩ (Json.num 7)] ∧
    process_metric ⟨none, none, none, none, none, none, none, none⟩ = [] :=
  ⟨(C3_union_precedence _).1 [Json.num 2] (Json.num 9) rfl rfl,
   (C3_union_precedence _).2.1 (Json.num 7) rfl rfl,
   (C3_union_precedence _).2.2 rfl rfl⟩

/-- C10: a present-but-empty `values` takes the same precedence: the
submission expands to zero records even when a scalar `value` is also
present — the `if let Some(values_array)` arm matches `Some([])`, so the
scalar arm is never consulted. -/
theorem C10_empty_values_precedence (metric : CollectdMetric) (v : Json)
    (h1 : metric.values = some []) (_h2 : metric.value = some v) :
    process_metric metric = [] := by
  simp [process_metric, h1]

/-- C10 witness: `values = []` with a scalar `value = 3` present yields
zero records. -/
theorem C10_empty_values_precedence_witness :
    process_metric
        ⟨none, none, none, none, none, none, some (Json.num 3), some []⟩ =
      [] :=
  C10_empty_values_precedence _ (Json.num 3) rfl rfl

/-- C4: on receiving a record from the channel, both workers append it to
the buffer, and flush exactly when the resulting buffer length reaches
`batch_size`: then the whole appended buffer is handed to the sink, the
buffer is drained, and the last-flush timestamp is reset to `now`;
otherwise the state only grows by the appended record. -/
theorem C4_size_trigger (config : Config) (s : DiskWriterState)
    (t : UdpSenderState) (metric : ProcessedMetric) (now : Nat) :
    (config.batch_size ≤ s.buffer.length + 1 →
      disk_writer_step config true now s (WorkerEvent.recv metric) =
        Except.ok ⟨⟨s.file ++ (s.buffer ++ [metric]).map serializeProcessedMetric,
          [], now⟩, [s.buffer ++ [metric]], false⟩) ∧
    (s.buffer.length + 1 < config.batch_size →
      disk_writer_step config true now s (WorkerEvent.recv metric) =
        Except.ok ⟨⟨s.file, s.buffer ++ [metric], s.last_write⟩, [], false⟩) ∧
    (config.batch_size ≤ t.buffer.length + 1 →
      udp_sender_step config true now t (WorkerEvent.recv metric) =
        Except.ok ⟨⟨t.sent ++ [Json.arr ((t.buffer ++ [metric]).map serializeProcessedMetric)],
          [], now⟩, [t.buffer ++ [metric]], false⟩) ∧
    (t.buffer.length + 1 < config.batch_size →
      udp_sender_step config true now t (WorkerEvent.recv metric) =
        Except.ok ⟨⟨t.sent, t.buffer ++ [metric], t.last_send⟩, [], false⟩) := by
  refine ⟨?_, ?_, ?_, ?_⟩
  · intro h
    simp [disk_writer_step, write_batch_to_disk, h]
  · intro h
    have hc : ¬ config.batch_size ≤ s.buffer.length + 1 := by omega
    simp [disk_writer_step, hc]
  · intro h
    simp [udp_sender_step, send_batch_udp, h]
  · intro h
    have hc : ¬ config.batch_size ≤ t.buffer.length + 1 := by omega
    simp [udp_sender_step, hc]

/-- C4 witness: with `batch_size = 1` an arriving record triggers an
immediate flush of the one-record buffer (both workers); with
`batch_size = 5` and an empty buffer it is only appended. -/
theorem C4_size_trigger_witness :
    disk_writer_step ⟨"0.0.0.0", 8080, 1, "disk", "collectd.out", "localhost", 9999, 1000⟩
        true 3 ⟨[], [], 0⟩
        (WorkerEvent.recv ⟨none, none, none, none, none, none, Json.null⟩) =
      Except.ok ⟨⟨[serializeProcessedMetric ⟨none, none, none, none, none, none, Json.null⟩],
        [], 3⟩, [[⟨none, none, none, none, none, none, Json.null⟩]], false⟩ ∧
    disk_writer_step ⟨"0.0.0.0", 8080, 5, "disk", "collectd.out", "localhost", 9999, 1000⟩
        true 3 ⟨[], [], 0⟩
        (WorkerEvent.recv ⟨none, none, none, none, none, none, Json.null⟩) =
      Except.ok ⟨⟨[], [⟨none, none, none, none, none, none, Json.null⟩], 0⟩, [], false⟩ ∧
    udp_sender_step ⟨"0.0.0.0", 8080, 1, "udp", "collectd.out", "localhost", 9999, 1000⟩
        true 3 ⟨[], [], 0⟩
        (WorkerEvent.recv ⟨none, none, none, none, none, none, Json.null⟩) =
      Except.ok ⟨⟨[Json.arr [serializeProcessedMetric ⟨none, none, none, none, none, none, Json.null⟩]],
        [], 3⟩, [[⟨none, none, none, none, none, none, Json.null⟩]], false⟩ ∧
    udp_sender_step ⟨"0.0.0.0", 8080, 5, "udp", "collectd.out", "localhost", 9999, 1000⟩
        true 3 ⟨[], [], 0⟩
        (WorkerEvent.recv ⟨none, none, none, none, none, none, Json.null⟩) =
      Except.ok ⟨⟨[], [⟨none, none, none, none, none, none, Json.null⟩], 0⟩, [], false⟩ :=
  ⟨(C4_size_trigger _ _ ⟨[], [], 0⟩ _ 3).1 (by decide),
   (C4_size_trigger _ _ ⟨[], [], 0⟩ _ 3).2.1 (by decide),
   (C4_size_trigger _ ⟨[], [], 0⟩ _ _ 3).2.2.1 (by decide),
   (C4_size_trigger _ ⟨[], [], 0⟩ _ _ 3).2.2.2 (by decide)⟩

/-- C5: on a timer tick, both workers flush exactly when the buffer is
non-empty AND the elapsed time since the last flush strictly exceeds
`flush_interval_ms`; the flush hands the whole buffer to the sink, drains
it and resets the timestamp to `now`; an empty buffer never flushes on a
tick, and a non-empty buffer within the interval is left untouched. -/
theorem C5_time_trigger (config : Config) (s : DiskWriterState)
    (t : UdpSenderState) (now : Nat) :
    (s.buffer = [] →
      disk_writer_step config true now s WorkerEvent.tick =
        Except.ok ⟨s, [], false⟩) ∧
    (s.buffer ≠ [] → config.flush_interval_ms < now - s.last_write →
      disk_writer_step config true now s WorkerEvent.tick =
        Except.ok ⟨⟨s.file ++ s.buffer.map serializeProcessedMetric, [], now⟩,
          [s.buffer], false⟩) ∧
    (s.buffer ≠ [] → ¬ config.flush_interval_ms < now - s.last_write →
      disk_writer_step config true now s WorkerEvent.tick =
        Except.ok ⟨s, [], false⟩) ∧
    (t.buffer = [] →
      udp_sender_step config true now t WorkerEvent.tick =
        Except.ok ⟨t, [], false⟩) ∧
    (t.buffer ≠ [] → config.flush_interval_ms < now - t.last_send →
      udp_sender_step config true now t WorkerEvent.tick =
        Except.ok ⟨⟨t.sent ++ [Json.arr (t.buffer.map serializeProcessedMetric)],
          [], now⟩, [t.buffer], false⟩) ∧
    (t.buffer ≠ [] → ¬ config.flush_interval_ms < now - t.last_send →
      udp_sender_step config true now t WorkerEvent.tick =
        Except.ok ⟨t, [], false⟩) := by
  refine ⟨?_, ?_, ?_, ?_, ?_, ?_⟩
  · intro h
    simp [disk_writer_step, h]
  · intro h h2
    have hb : s.buffer.isEmpty = false := by
      simpa [List.isEmpty_iff] using h
    simp [disk_writer_step, write_batch_to_disk, hb, h2]
  · intro h h2
    have hb : s.buffer.isEmpty = false := by
      simpa [List.isEmpty_iff] using h
    simp [disk_writer_step, hb, h2]
  · intro h
    simp [udp_sender_step, h]
  · intro h h2
    have hb : t.buffer.isEmpty = false := by
      simpa [List.isEmpty_iff] using h
    simp [udp_sender_step, send_batch_udp, hb, h2]
  · intro h h2
    have hb : t.buffer.isEmpty = false := by
      simpa [List.isEmpty_iff] using h
    simp [udp_sender_step, hb, h2]

/-- C5 witness: with `flush_interval_ms = 10`, a tick at `now = 20` with
`last = 0` flushes a one-record buffer (both workers); a tick at `now = 5`
does not; an empty buffer does not flush even past the interval. -/
theorem C5_time_trigger_witness :
    disk_writer_step ⟨"0.0.0.0", 8080, 100, "disk", "collectd.out", "localhost", 9999, 10⟩
        true 20 ⟨[], [], 0⟩ WorkerEvent.tick =
      Except.ok ⟨⟨[], [], 0⟩, [], false⟩ ∧
    disk_writer_step ⟨"0.0.0.0", 8080, 100, "disk", "collectd.out", "localhost", 9999, 10⟩
        true 20 ⟨[], [⟨none, none, none, none, none, none, Json.null⟩], 0⟩ WorkerEvent.tick =
      Except.ok ⟨⟨[serializeProcessedMetric ⟨none, none, none, none, none, none, Json.null⟩],
        [], 20⟩, [[⟨none, none, none, none, none, none, Json.null⟩]], false⟩ ∧
    disk_writer_step ⟨"0.0.0.0", 8080, 100, "disk", "collectd.out", "localhost", 9999, 10⟩
        true 5 ⟨[], [⟨none, none, none, none, none, none, Json.null⟩], 0⟩ WorkerEvent.tick =
      Except.ok ⟨⟨[], [⟨none, none, none, none, none, none, Json.null⟩], 0⟩, [], false⟩ ∧
    udp_sender_step ⟨"0.0.0.0", 8080, 100, "udp", "collectd.out", "localhost", 9999, 10⟩
        true 20 ⟨[], [⟨none, none, none, none, none, none, Json.null⟩], 0⟩ WorkerEvent.tick =
      Except.ok ⟨⟨[Json.arr [serializeProcessedMetric ⟨none, none, none, none, none, none, Json.null⟩]],
        [], 20⟩, [[⟨none, none, none, none, none, none, Json.null⟩]], false⟩ :=
  ⟨(C5_time_trigger _ ⟨[], [], 0⟩ ⟨[], [], 0⟩ 20).1 rfl,
   (C5_time_trigger _ _ ⟨[], [], 0⟩ 20).2.1 (by simp) (by decide),
   (C5_time_trigger _ _ ⟨[], [], 0⟩ 5).2.2.1 (by simp) (by decide),
   (C5_time_trigger _ ⟨[], [], 0⟩ _ 20).2.2.2.2.1 (by simp) (by decide)⟩

/-- C6: on channel closure both workers terminate (`terminated = true`),
performing exactly one final flush of everything buffered when the buffer
is non-empty (in particular when it holds fewer than `batch_size` records)
— every buffered record reaches the sink — and no flush at all when the
buffer is empty. -/
theorem C6_shutdown_flush (config : Config) (s : DiskWriterState)
    (t : UdpSenderState) (now : Nat) :
    (s.buffer ≠ [] → s.buffer.length < config.batch_size →
      disk_writer_step config true now s WorkerEvent.closed =
        Except.ok ⟨⟨s.file ++ s.buffer.map serializeProcessedMetric, [],
          s.last_write⟩, [s.buffer], true⟩) ∧
    (s.buffer = [] →
      disk_writer_step config true now s WorkerEvent.closed =
        Except.ok ⟨s, [], true⟩) ∧
    (t.buffer ≠ [] → t.buffer.length < config.batch_size →
      udp_sender_step config true now t WorkerEvent.closed =
        Except.ok ⟨⟨t.sent ++ [Json.arr (t.buffer.map serializeProcessedMetric)],
          [], t.last_send⟩, [t.buffer], true⟩) ∧
    (t.buffer = [] →
      udp_sender_step config true now t WorkerEvent.closed =
        Except.ok ⟨t, [], true⟩) := by
  refine ⟨?_, ?_, ?_, ?_⟩
  · intro h _
    have hb : s.buffer.isEmpty = false := by
      simpa [List.isEmpty_iff] using h
    simp [disk_writer_step, write_batch_to_disk, hb]
  · intro h
    simp [disk_writer_step, h]
  · intro h _
    have hb : t.buffer.isEmpty = false := by
      simpa [List.isEmpty_iff] using h
    simp [udp_sender_step, send_batch_udp, hb]
  · intro h
    simp [udp_sender_step, h]

/-- C6 witness: closing the channel with one buffered record (fewer than
`batch_size = 100`) flushes it and terminates (both workers); closing with
an empty buffer terminates without flushing. -/
theorem C6_shutdown_flush_witness :
    disk_writer_step ⟨"0.0.0.0", 8080, 100, "disk", "collectd.out", "localhost", 9999, 1000⟩
        true 0 ⟨[], [⟨none, none, none, none, none, none, Json.null⟩], 0⟩ WorkerEvent.closed =
      Except.ok ⟨⟨[serializeProcessedMetric ⟨none, none, none, none, none, none, Json.null⟩],
        [], 0⟩, [[⟨none, none, none, none, none, none, Json.null⟩]], true⟩ ∧
    disk_writer_step ⟨"0.0.0.0", 8080, 100, "disk", "collectd.out", "localhost", 9999, 1000⟩
        true 0 ⟨[], [], 0⟩ WorkerEvent.closed =
      Except.ok ⟨⟨[], [], 0⟩, [], true⟩ ∧
    udp_sender_step ⟨"0.0.0.0", 8080, 100, "udp", "collectd.out", "localhost", 9999, 1000⟩
        true 0 ⟨[], [⟨none, none, none, none, none, none, Json.null⟩], 0⟩ WorkerEvent.closed =
      Except.ok ⟨⟨[Json.arr [serializeProcessedMetric ⟨none, none, none, none, none, none, Json.null⟩]],
        [], 0⟩, [[⟨none, none, none, none, none, none, Json.null⟩]], true⟩ :=
  ⟨(C6_shutdown_flush _ _ ⟨[], [], 0⟩ 0).1 (by simp) (by decide),
   (C6_shutdown_flush _ ⟨[], [], 0⟩ ⟨[], [], 0⟩ 0).2.1 rfl,
   (C6_shutdown_flush _ ⟨[], [], 0⟩ _ 0).2.2.1 (by simp) (by decide)⟩

/-- C7: a sink I/O failure during any flush — size-triggered, tick
triggered, or the shutdown flush, in either worker — is propagated
(`Except.error`, the Rust `?`): nothing is retried or absorbed and the
worker loop ends; and once the worker is gone (`channel_open = false`)
every request that attempts at least one enqueue is answered 500 with
nothing enqueued. -/
theorem C7_sink_error_fatal (config : Config) (s : DiskWriterState)
    (t : UdpSenderState) (metric : ProcessedMetric) (now : Nat)
    (body : Option Json) :
    (config.batch_size ≤ s.buffer.length + 1 →
      disk_writer_step config false now s (WorkerEvent.recv metric) =
        Except.error SinkIOError.ioError) ∧
    (s.buffer ≠ [] → config.flush_interval_ms < now - s.last_write →
      disk_writer_step config false now s WorkerEvent.tick =
        Except.error SinkIOError.ioError) ∧
    (s.buffer ≠ [] →
      disk_writer_step config false now s WorkerEvent.closed =
        Except.error SinkIOError.ioError) ∧
    (config.batch_size ≤ t.buffer.length + 1 →
      udp_sender_step config false now t (WorkerEvent.recv metric) =
        Except.error SinkIOError.ioError) ∧
    (t.buffer ≠ [] → config.flush_interval_ms < now - t.last_send →
      udp_sender_step config false now t WorkerEvent.tick =
        Except.error SinkIOError.ioError) ∧
    (t.buffer ≠ [] →
      udp_sender_step config false now t WorkerEvent.closed =
        Except.error SinkIOError.ioError) ∧
    (∀ raw_metrics, parse_raw_metrics body = some raw_metrics →
      raw_metrics.flatMap process_metric ≠ [] →
      collectd_handler false body = (Except.error 500, [])) := by
  refine ⟨?_, ?_, ?_, ?_, ?_, ?_, ?_⟩
  · intro h
    simp [disk_writer_step, h]
  · intro h h2
    have hb : s.buffer.isEmpty = false := by
      simpa [List.isEmpty_iff] using h
    simp [disk_writer_step, hb, h2]
  · intro h
    have hb : s.buffer.isEmpty = false := by
      simpa [List.isEmpty_iff] using h
    simp [disk_writer_step, hb]
  · intro h
    simp [udp_sender_step, h]
  · intro h h2
    have hb : t.buffer.isEmpty = false := by
      simpa [List.isEmpty_iff] using h
    simp [udp_sender_step, hb, h2]
  · intro h
    have hb : t.buffer.isEmpty = false := by
      simpa [List.isEmpty_iff] using h
    simp [udp_sender_step, hb]
  · intro raw_metrics hp hne
    have hb : (raw_metrics.flatMap process_metric).isEmpty = false := by
      simpa [List.isEmpty_iff] using hne
    simp [collectd_handler, hp, hb]

/-- C7 witness: a failing flush at `batch_size = 1` on receive is fatal for
both workers, as is a failing shutdown flush; and with the worker gone, a
request carrying one metric is answered 500 with nothing enqueued. -/
theorem C7_sink_error_fatal_witness :
    disk_writer_step ⟨"0.0.0.0", 8080, 1, "disk", "collectd.out", "localhost", 9999, 1000⟩
        false 3 ⟨[], [], 0⟩
        (WorkerEvent.recv ⟨none, none, none, none, none, none, Json.null⟩) =
      Except.error SinkIOError.ioError ∧
    udp_sender_step ⟨"0.0.0.0", 8080, 1, "udp", "collectd.out", "localhost", 9999, 1000⟩
        false 3 ⟨[], [], 0⟩
        (WorkerEvent.recv ⟨none, none, none, none, none, none, Json.null⟩) =
      Except.error SinkIOError.ioError ∧
    disk_writer_step ⟨"0.0.0.0", 8080, 100, "disk", "collectd.out", "localhost", 9999, 1000⟩
        false 0 ⟨[], [⟨none, none, none, none, none, none, Json.null⟩], 0⟩
        WorkerEvent.closed =
      Except.error SinkIOError.ioError ∧
    collectd_handler false (some (Json.obj [("value", Json.num 5)])) =
      (Except.error 500, []) :=
  ⟨(C7_sink_error_fatal _ ⟨[], [], 0⟩ ⟨[], [], 0⟩ _ 3 none).1 (by decide),
   (C7_sink_error_fatal _ ⟨[], [], 0⟩ ⟨[], [], 0⟩ _ 3 none).2.2.2.1 (by decide),
   (C7_sink_error_fatal _ _ ⟨[], [], 0⟩ ⟨none, none, none, none, none, none, Json.null⟩ 0
      none).2.2.1 (by simp),
   (C7_sink_error_fatal ⟨"", 0, 1, "", "", "", 0, 0⟩ ⟨[], [], 0⟩ ⟨[], [], 0⟩
      ⟨none, none, none, none, none, none, Json.null⟩ 0
      (some (Json.obj [("value", Json.num 5)]))).2.2.2.2.2.2
     [⟨none, none, none, none, none, none, some (Json.num 5), none⟩] rfl
     (by simp [process_metric])⟩

/-- C8: the body-form decision is the ordered parse attempt — a body that
deserializes as a single `CollectdMetric` is taken as the one-element list
(the array form is never tried), and only on its failure is the array form
tried; a body that parses as neither form is answered 400 with nothing
enqueued, whatever the channel state; a body that parses, when every
derived record enqueues successfully (`channel_open = true`), is answered
200 with body `"OK\n"` and exactly the derived records enqueued. -/
theorem C8_ordered_parse (ch : Bool) (body : Option Json) :
    (∀ j m, body = some j → parseCollectdMetric j = some m →
      parse_raw_metrics body = some [m]) ∧
    (∀ j, body = some j → parseCollectdMetric j = none →
      parse_raw_metrics body = parseCollectdMetricList j) ∧
    (parse_raw_metrics body = none →
      collectd_handler ch body = (Except.error 400, [])) ∧
    (∀ raw_metrics, parse_raw_metrics body = some raw_metrics →
      collectd_handler true body =
        (Except.ok "OK\n", raw_metrics.flatMap process_metric)) := by
  refine ⟨?_, ?_, ?_, ?_⟩
  · intro j m hb hm
    subst hb
    simp [parse_raw_metrics, hm]
  · intro j hb hm
    subst hb
    simp [parse_raw_metrics, hm]
  · intro h
    simp [collectd_handler, h]
  · intro raw_metrics h
    by_cases hE : raw_metrics.flatMap process_metric = []
    · simp [collectd_handler, h, hE]
    · have hb : (raw_metrics.flatMap process_metric).isEmpty = false := by
        simpa [List.isEmpty_iff] using hE
      simp [collectd_handler, h, hb]

/-- C8 witness: an object body is taken by the single-object arm; a
one-element array body fails the single arm (wrong positional length) and
falls back to the array arm; a JSON string body parses as neither and is
answered 400; the object body with an open channel is answered `"OK\n"`
with its one derived record enqueued; and the positional seq form is
live — an eight-`null` array body is accepted by the single-object arm
(all fields absent, zero records, still 200), and an eight-element array
with positionally typed values is answered 200 with its one derived
record. -/
theorem C8_ordered_parse_witness :
    parse_raw_metrics (some (Json.obj [("host", Json.str "web1"), ("value", Json.num 5)])) =
      some [⟨none, some "web1", none, none, none, none, some (Json.num 5), none⟩] ∧
    parse_raw_metrics (some (Json.arr [Json.obj [("value", Json.num 1)]])) =
      parseCollectdMetricList (Json.arr [Json.obj [("value", Json.num 1)]]) ∧
    collectd_handler true (some (Json.str "x")) = (Except.error 400, []) ∧
    collectd_handler true (some (Json.obj [("host", Json.str "web1"), ("value", Json.num 5)])) =
      (Except.ok "OK\n",
        [(⟨none, some "web1", none, none, none, none, some (Json.num 5), none⟩ :
          CollectdMetric)].flatMap process_metric) ∧
    parse_raw_metrics (some (Json.arr [Json.null, Json.null, Json.null, Json.null,
        Json.null, Json.null, Json.null, Json.null])) =
      some [⟨none, none, none, none, none, none, none, none⟩] ∧
    collectd_handler true (some (Json.arr [Json.null, Json.null, Json.null, Json.null,
        Json.null, Json.null, Json.null, Json.null])) =
      (Except.ok "OK\n", []) ∧
    collectd_handler true (some (Json.arr [Json.null, Json.str "h", Json.str "p",
        Json.str "pi", Json.str "t", Json.str "ti", Json.num 5, Json.null])) =
      (Except.ok "OK\n",
        [(⟨none, some "h", some "p", some "pi", some "t", some "ti",
           some (Json.num 5), none⟩ : CollectdMetric)].flatMap process_metric) :=
  ⟨(C8_ordered_parse true _).1 _
      ⟨none, some "web1", none, none, none, none, some (Json.num 5), none⟩ rfl rfl,
   (C8_ordered_parse true _).2.1 _ rfl rfl,
   (C8_ordered_parse true _).2.2.1 rfl,
   (C8_ordered_parse true _).2.2.2
     [⟨none, some "web1", none, none, none, none, some (Json.num 5), none⟩] rfl,
   (C8_ordered_parse true _).1 _
     ⟨none, none, none, none, none, none, none, none⟩ rfl rfl,
   (C8_ordered_parse true _).2.2.2
     [⟨none, none, none, none, none, none, none, none⟩] rfl,
   (C8_ordered_parse true _).2.2.2
     [⟨none, some "h", some "p", some "pi", some "t", some "ti",
       some (Json.num 5), none⟩] rfl⟩

/-- C9: a UDP flush of a buffer of k records transmits exactly one datagram
whose payload is the serialization of one JSON array of exactly k objects
— the i-th object being the serialization of the i-th buffered record —
and leaves the buffer empty. -/
theorem C9_udp_single_datagram (buffer : List ProcessedMetric) :
    (send_batch_udp buffer).1 =
      Json.arr (buffer.map serializeProcessedMetric) ∧
    ((send_batch_udp buffer).1).arrLen = buffer.length ∧
    (∀ i : Nat, (buffer.map serializeProcessedMetric)[i]? =
      (buffer[i]?).map serializeProcessedMetric) ∧
    (send_batch_udp buffer).2 = [] := by
  refine ⟨rfl, ?_, ?_, rfl⟩
  · simp [send_batch_udp, Json.arrLen]
  · intro i
    simp
